import Mathlib

/-!
Verification of the Essentials-QuantFinance helpers (data_loader.py,
analysis_tools.py, visualisation.py) against their specification.

The tabular data model (a pandas DataFrame) is embedded shallowly: a table
is a date index together with an ordered list of named columns, and a cell
is `Option ℚ` (`none` models a missing value / NaN; exact rational
arithmetic stands in for the library's floating point).  External library
routines (the square root used by std/skewness, the Augmented
Dickey-Fuller test, the seasonal-decomposition routine, the download
provider) are parameters of the embedded functions, exactly as the code
treats them as black boxes.  A Python function that can raise is embedded
with result type `Except String _`; `Except.error` models an uncaught
exception, `Except.ok` a normal return.
-/

/-- A pandas DataFrame as the repository uses it: a date index (dates as
integers), an optional index name and column-group name, and an ordered
list of columns, each a name paired with its cells. -/
structure DataFrame where
  indexName : Option String
  columnsName : Option String
  index : List Int
  cols : List (String × List (Option ℚ))
  deriving Repr, DecidableEq

/-- `data.columns`: the ordered column labels of a table. -/
def columns (df : DataFrame) : List String := df.cols.map Prod.fst

/-- `data[t]` when `t` is known to be a column: the cells of column `t`
(defaults to the empty column when absent; total variant used only where
the code has already validated membership). -/
def getColD (df : DataFrame) (t : String) : List (Option ℚ) :=
  match df.cols.find? (fun c => c.1 == t) with
  | some c => c.2
  | none => []

/-- `data[t]` in general: raises KeyError when `t` is not a column. -/
def getCol (df : DataFrame) (t : String) : Except String (List (Option ℚ)) :=
  match df.cols.find? (fun c => c.1 == t) with
  | some c => .ok c.2
  | none => .error ("KeyError: " ++ t)

/-- `series.dropna()`: the non-missing cells, in order. -/
def dropna (xs : List (Option ℚ)) : List ℚ := xs.filterMap id

/-- The mean of a series as pandas computes it over non-missing values
(`none` when the series is empty, as NaN). -/
def listMean (l : List ℚ) : Option ℚ :=
  if l = [] then none else some (l.sum / l.length)

/-- Linear-interpolation quantile on an already sorted non-empty list,
pandas' default interpolation; `none` on the empty list (NaN). -/
def quantileSorted (s : List ℚ) (q : ℚ) : Option ℚ :=
  match s with
  | [] => none
  | x :: _ =>
    let n := s.length
    let pos := q * ((n : ℚ) - 1)
    let i := pos.floor.toNat
    let g := pos - (i : ℚ)
    let lower := s.getD i x
    let upper := s.getD (min (i + 1) (n - 1)) x
    some (lower + g * (upper - lower))

/-- One row of `describe().T` plus the `skewness`/`kurtosis` columns the
code appends: the statistics of one selected ticker.  `none` models a NaN
entry (empty or too-short series). -/
structure StatRow where
  ticker : String
  count : Nat
  mean : Option ℚ
  std : Option ℚ
  min : Option ℚ
  q25 : Option ℚ
  q50 : Option ℚ
  q75 : Option ℚ
  max : Option ℚ
  skewness : Option ℚ
  kurtosis : Option ℚ
  deriving Repr, DecidableEq

/-- The statistics pandas computes for one column: `describe()` over the
non-missing values (count, mean, std with ddof = 1, min, the 25th/50th/75th
linear-interpolation percentiles, max), plus `skew()` (adjusted
Fisher-Pearson G1, NaN below 3 points, 0 on a constant series) and
`kurt()` (adjusted excess kurtosis G2, NaN below 4 points, 0 on a constant
series).  `sq` is the library's floating-point square root, a black box. -/
def statRowOf (sq : ℚ → ℚ) (name : String) (raw : List (Option ℚ)) : StatRow :=
  let l := dropna raw
  let n := l.length
  let s := l.insertionSort (fun a b => a ≤ b)
  let mu := l.sum / (n : ℚ)
  let m2 := (l.map (fun x => (x - mu) ^ 2)).sum
  let m3 := (l.map (fun x => (x - mu) ^ 3)).sum
  let m4 := (l.map (fun x => (x - mu) ^ 4)).sum
  { ticker := name
    count := n
    mean := listMean l
    std := if n < 2 then none else some (sq (m2 / ((n : ℚ) - 1)))
    min := l.min?
    q25 := quantileSorted s (1 / 4)
    q50 := quantileSorted s (1 / 2)
    q75 := quantileSorted s (3 / 4)
    max := l.max?
    skewness :=
      if n < 3 then none
      else if m2 = 0 then some 0
      else some (((n : ℚ) * sq ((n : ℚ) - 1) / ((n : ℚ) - 2)) * (m3 / (m2 * sq m2)))
    kurtosis :=
      if n < 4 then none
      else if m2 = 0 then some 0
      else some ((n : ℚ) * ((n : ℚ) + 1) * ((n : ℚ) - 1) * m4
          / (((n : ℚ) - 2) * ((n : ℚ) - 3) * m2 ^ 2)
        - 3 * ((n : ℚ) - 1) ^ 2 / (((n : ℚ) - 2) * ((n : ℚ) - 3))) }

/-- `analysis_tools.descriptive_stats`: filter the ticker list to those
present as columns; if none remain raise ValueError, otherwise build
`data[valid_tickers].describe().T` with `skewness` and `kurtosis`
appended — one row per element of `valid_tickers`, in that order. -/
def descriptive_stats (sq : ℚ → ℚ) (data : DataFrame) (tickers : List String) :
    Except String (List StatRow) :=
  let valid_tickers := tickers.filter (fun t => (columns data).contains t)
  if valid_tickers = [] then
    .error "None of the provided tickers are found in the dataset."
  else
    .ok (valid_tickers.map (fun t => statRowOf sq t (getColD data t)))

/-- One row of the `ts_stationarity` result table. -/
structure ADFRow where
  ticker : String
  adfStat : ℚ
  pvalue : ℚ
  stationary : String
  deriving Repr, DecidableEq

/-- `analysis_tools.ts_stationarity`: for each column of the table, in
column order, drop missing values, run the Augmented Dickey-Fuller test
`adf` (a black-box library routine returning the test statistic and the
p-value), and record `Stationary = "Yes"` exactly when the p-value is
strictly below 0.05. -/
def ts_stationarity (adf : List ℚ → ℚ × ℚ) (data : DataFrame) : List ADFRow :=
  data.cols.map (fun c =>
    let a := adf (dropna c.2)
    { ticker := c.1
      adfStat := a.1
      pvalue := a.2
      stationary := if a.2 < 0.05 then "Yes" else "No" })

/-- `data_loader.stock_data`: with `today` the current date (in days) and
`download` the provider call (a black box that either returns a table or
raises), compute the range `[today - days, today]`, request the history,
and strip the index name and the column-group name; any provider exception
is caught, reported, and turned into the `None` sentinel. -/
def stock_data (today : Int)
    (download : List String → Int → Int → Except String DataFrame)
    (tickers : List String) (days : Int) : Option DataFrame :=
  let e := today
  let s := e - days
  match download tickers s e with
  | .ok d => some { d with indexName := none, columnsName := none }
  | .error _ => none

/-- One cell of a histogram/boxplot subplot grid: either a chart drawn
from the given data (of chart-specific type `α`), or a blank cell
(`axis('off')`). -/
inductive Cell (α : Type) where
  | drawn (ticker : String) (values : α)
  | blank
  deriving Repr, DecidableEq

/-- The drawing loops shared by `plot_histograms` and `plot_boxplots`:
walk the ticker list drawing one cell per ticker (`draw`), raising
IndexError if the flattened axes array (of size `cap`) runs out, then turn
every remaining cell off. -/
def gridDraw {α : Type} (draw : String → Cell α) :
    List String → Nat → Except String (List (Cell α))
  | [], cap => .ok (List.replicate cap Cell.blank)
  | t :: _, 0 => .error ("IndexError at " ++ t)
  | t :: ts, cap + 1 =>
    (gridDraw draw ts cap).map (fun rest => draw t :: rest)

/-- `visualisation.plot_histograms`: a grid of 3 columns and
`(len(tickers) + 2) // 3` rows of cells; the allocation
`plt.subplots(rows, 3)` raises ValueError when `rows` is 0, i.e. exactly
for an empty ticker list (for one row the squeezed 1-D axes array is
flattened right back, so indexing is unaffected).  A ticker present in
the table gets a histogram of its raw column, an absent ticker a blank
cell, and cells past the last ticker are blanked. -/
def plot_histograms (data : DataFrame) (tickers : List String) :
    Except String (List (Cell (List (Option ℚ)))) :=
  let n := tickers.length
  let rows := (n + 2) / 3
  if rows = 0 then .error "ValueError: Number of rows must be a positive integer"
  else
    gridDraw
      (fun t =>
        if (columns data).contains t then Cell.drawn t (getColD data t)
        else Cell.blank)
      tickers (rows * 3)

/-- `visualisation.plot_boxplots`: same grid policy as the histograms
(including the ValueError on the empty ticker list, whose grid would
have 0 rows); a present ticker gets a boxplot of its column with missing
values dropped. -/
def plot_boxplots (data : DataFrame) (tickers : List String) :
    Except String (List (Cell (List ℚ))) :=
  let n := tickers.length
  let rows := (n + 2) / 3
  if rows = 0 then .error "ValueError: Number of rows must be a positive integer"
  else
    gridDraw
      (fun t =>
        if (columns data).contains t then
          Cell.drawn t (dropna (getColD data t))
        else Cell.blank)
      tickers (rows * 3)

/-- `visualisation.tracking_plot`: one line per requested ticker, drawn
from `data[t]` — which raises KeyError when `t` is not a column. -/
def tracking_plot (data : DataFrame) : List String →
    Except String (List (String × List (Option ℚ)))
  | [] => .ok []
  | t :: ts =>
    match getCol data t with
    | .error e => .error e
    | .ok v => (tracking_plot data ts).map (fun rest => (t, v) :: rest)

/-- One row of the seasonal-decomposition figure: the three sub-charts
(trend, seasonal, residuals) of one column, with the decomposition period
used. -/
structure DecompRow where
  ticker : String
  period : Nat
  trend : List ℚ
  seasonal : List ℚ
  resid : List ℚ
  deriving Repr, DecidableEq

/-- The drawing loop of `ts_decomposition`: one grid row per column of the
table, raising IndexError when the grid (allocated with `cap` rows) runs
out of rows before the columns do.  `decomp` is the library's
`seasonal_decompose`, a black box from the series and period to the
trend/seasonal/residual components. -/
def drawDecomp (decomp : List ℚ → Nat → List ℚ × List ℚ × List ℚ) :
    List (String × List (Option ℚ)) → Nat → Except String (List DecompRow)
  | [], _ => .ok []
  | c :: _, 0 => .error ("IndexError at " ++ c.1)
  | c :: cs, cap + 1 =>
    let d := decomp (dropna c.2) 30
    (drawDecomp decomp cs cap).map (fun rest =>
      { ticker := c.1, period := 30, trend := d.1, seasonal := d.2.1,
        resid := d.2.2 } :: rest)

/-- `visualisation.ts_decomposition`: allocate `plt.subplots(n, 3)` with
`n = len(tickers)`, then decompose each column of the table with period
30 and draw it in the next grid row.  The allocation raises ValueError
for `n = 0`; for `n = 1` it returns a squeezed 1-D axes array, so the
loop's first 2-D access `axes[i, 0]` raises IndexError as soon as there
is a column to draw; for `n ≥ 2` the axes form a full n × 3 grid and the
loop raises IndexError only when it runs past row `n`. -/
def ts_decomposition (decomp : List ℚ → Nat → List ℚ × List ℚ × List ℚ)
    (data : DataFrame) (tickers : List String) : Except String (List DecompRow) :=
  let n := tickers.length
  if n = 0 then .error "ValueError: Number of rows must be a positive integer"
  else if n = 1 then
    match data.cols with
    | [] => .ok []
    | c :: _ => .error ("IndexError at " ++ c.1)
  else drawDecomp decomp data.cols n

/-- One row of the ACF/PACF figure: the two sub-charts of one column, with
the lag count used. -/
structure ACFRow where
  ticker : String
  lags : Nat
  series : List ℚ
  deriving Repr, DecidableEq

/-- The drawing loop of `acf_pacf`: one grid row per column of the table,
raising IndexError when the grid (allocated with `cap` rows) runs out of
rows before the columns do; each row plots the ACF and the PACF of the
column at 25 lags. -/
def drawAcf : List (String × List (Option ℚ)) → Nat → Except String (List ACFRow)
  | [], _ => .ok []
  | c :: _, 0 => .error ("IndexError at " ++ c.1)
  | c :: cs, cap + 1 =>
    (drawAcf cs cap).map (fun rest =>
      { ticker := c.1, lags := 25, series := dropna c.2 } :: rest)

/-- `visualisation.acf_pacf`: allocate `plt.subplots(n, 2)` with
`n = len(tickers)`, then plot each column's ACF and PACF at 25 lags in
the next grid row.  The allocation behaves like the decomposition grid:
ValueError for `n = 0`, a squeezed 1-D axes array for `n = 1` (so
`axes[i, 0]` raises IndexError at the first column), a full n × 2 grid
for `n ≥ 2` where only running past row `n` raises. -/
def acf_pacf (data : DataFrame) (tickers : List String) :
    Except String (List ACFRow) :=
  let n := tickers.length
  if n = 0 then .error "ValueError: Number of rows must be a positive integer"
  else if n = 1 then
    match data.cols with
    | [] => .ok []
    | c :: _ => .error ("IndexError at " ++ c.1)
  else drawAcf data.cols n

/-! ## Test fixtures and basic lemmas -/

/-- A one-column test table: column "A" with values 1 and 2. -/
def dfA : DataFrame :=
  { indexName := none, columnsName := none, index := [0, 1],
    cols := [("A", [some 1, some 2])] }

/-- A two-column test table with columns "A" and "B". -/
def dfAB : DataFrame :=
  { indexName := none, columnsName := none, index := [0, 1],
    cols := [("A", [some 1, some 2]), ("B", [some 3, some 4])] }

/-- A three-column test table with columns "A", "B" and "C". -/
def dfABC : DataFrame :=
  { indexName := none, columnsName := none, index := [0, 1],
    cols := [("A", [some 1, some 2]), ("B", [some 3, some 4]),
             ("C", [some 5, some 6])] }

lemma contains_iff_mem (l : List String) (t : String) :
    l.contains t = true ↔ t ∈ l := by
  simp [List.contains_eq_any_beq]

lemma statRowOf_ticker (sq : ℚ → ℚ) (t : String) (raw : List (Option ℚ)) :
    (statRowOf sq t raw).ticker = t := rfl

lemma statRowOf_mean (sq : ℚ → ℚ) (t : String) (raw : List (Option ℚ)) :
    (statRowOf sq t raw).mean = listMean (dropna raw) := rfl

lemma statRowOf_min (sq : ℚ → ℚ) (t : String) (raw : List (Option ℚ)) :
    (statRowOf sq t raw).min = (dropna raw).min? := rfl

lemma statRowOf_max (sq : ℚ → ℚ) (t : String) (raw : List (Option ℚ)) :
    (statRowOf sq t raw).max = (dropna raw).max? := rfl

lemma card_mul_min_le_sum (l : List ℚ) (c : ℚ) (h : ∀ x ∈ l, c ≤ x) :
    (l.length : ℚ) * c ≤ l.sum := by
  induction l with
  | nil => simp
  | cons x xs ih =>
    have hx : c ≤ x := h x (List.mem_cons_self x xs)
    have hs := ih (fun y hy => h y (List.mem_cons_of_mem x hy))
    simp only [List.sum_cons, List.length_cons]
    push_cast
    linarith

lemma sum_le_card_mul_max (l : List ℚ) (c : ℚ) (h : ∀ x ∈ l, x ≤ c) :
    l.sum ≤ (l.length : ℚ) * c := by
  induction l with
  | nil => simp
  | cons x xs ih =>
    have hx : x ≤ c := h x (List.mem_cons_self x xs)
    have hs := ih (fun y hy => h y (List.mem_cons_of_mem x hy))
    simp only [List.sum_cons, List.length_cons]
    push_cast
    linarith

/-- The mean of a series lies between its minimum and its maximum. -/
lemma min?_le_mean_le_max? (l : List ℚ) (m mn mx : ℚ)
    (hm : listMean l = some m) (hmn : l.min? = some mn)
    (hmx : l.max? = some mx) : mn ≤ m ∧ m ≤ mx := by
  have hne : l ≠ [] := by
    intro h
    simp [listMean, h] at hm
  have hmval : m = l.sum / l.length := by
    simpa [listMean, hne] using hm.symm
  have hlow : ∀ b ∈ l, mn ≤ b :=
    fun b hb =>
      (List.le_min?_iff (fun a b c => le_min_iff) hmn).1 (le_refl mn) b hb
  have hhigh : ∀ b ∈ l, b ≤ mx :=
    fun b hb =>
      (List.max?_le_iff (fun a b c => max_le_iff) hmx).1 (le_refl mx) b hb
  have hlen : (0 : ℚ) < l.length := by
    have : l.length ≠ 0 := fun h => hne (List.length_eq_zero.mp h)
    exact_mod_cast Nat.pos_of_ne_zero this
  have h1 := card_mul_min_le_sum l mn hlow
  have h2 := sum_le_card_mul_max l mx hhigh
  constructor
  · rw [hmval, le_div_iff₀ hlen]
    linarith
  · rw [hmval, div_le_iff₀ hlen]
    linarith

/-- On a non-empty intersection, `descriptive_stats` returns one row per
element of the filtered ticker list, in that order. -/
lemma descriptive_stats_eq_ok (sq : ℚ → ℚ) (data : DataFrame)
    (tickers : List String) (hne : ∃ t ∈ tickers, t ∈ columns data) :
    descriptive_stats sq data tickers =
      .ok ((tickers.filter (fun t => (columns data).contains t)).map
        (fun t => statRowOf sq t (getColD data t))) := by
  obtain ⟨t, ht, hc⟩ := hne
  unfold descriptive_stats
  rw [if_neg]
  intro hnil
  rw [List.filter_eq_nil_iff] at hnil
  exact hnil t ht ((contains_iff_mem _ _).2 hc)

/-- Claim C1: the descriptive-statistics function raises ValueError
exactly when no requested ticker is a column of the table, the error
propagates to the caller (it is the function's result, nothing is caught
internally), and with at least one matching ticker it returns normally. -/
theorem descriptive_stats_valueError_iff (sq : ℚ → ℚ) (data : DataFrame)
    (tickers : List String) :
    (descriptive_stats sq data tickers =
        .error "None of the provided tickers are found in the dataset." ↔
      ∀ t ∈ tickers, t ∉ columns data) ∧
    ((∃ rows, descriptive_stats sq data tickers = .ok rows) ↔
      ∃ t ∈ tickers, t ∈ columns data) := by
  by_cases h : tickers.filter (fun t => (columns data).contains t) = []
  · rw [List.filter_eq_nil_iff] at h
    have herr : descriptive_stats sq data tickers =
        .error "None of the provided tickers are found in the dataset." := by
      unfold descriptive_stats
      rw [if_pos]
      rw [List.filter_eq_nil_iff]
      exact h
    constructor
    · constructor
      · intro _ t ht hc
        exact h t ht ((contains_iff_mem _ _).2 hc)
      · intro _
        exact herr
    · constructor
      · intro ⟨rows, hrows⟩
        rw [herr] at hrows
        exact absurd hrows (by simp)
      · intro ⟨t, ht, hc⟩
        exact absurd ((contains_iff_mem _ _).2 hc) (h t ht)
  · have hex : ∃ t ∈ tickers, t ∈ columns data := by
      rcases List.exists_cons_of_ne_nil h with ⟨t, rest, hcons⟩
      have : t ∈ tickers.filter (fun t => (columns data).contains t) := by
        rw [hcons]; exact List.mem_cons_self t rest
      rw [List.mem_filter] at this
      exact ⟨t, this.1, (contains_iff_mem _ _).1 this.2⟩
    have hok := descriptive_stats_eq_ok sq data tickers hex
    constructor
    · constructor
      · intro habs
        rw [hok] at habs
        exact absurd habs (by simp)
      · intro hall
        obtain ⟨t, ht, hc⟩ := hex
        exact absurd hc (hall t ht)
    · constructor
      · intro _
        exact hex
      · intro _
        exact ⟨_, hok⟩

lemma descriptive_stats_tickers (sq : ℚ → ℚ) (data : DataFrame)
    (tickers : List String) :
    ((tickers.filter (fun t => (columns data).contains t)).map
        (fun t => statRowOf sq t (getColD data t))).map StatRow.ticker =
      tickers.filter (fun t => (columns data).contains t) := by
  rw [List.map_map]
  have h : (StatRow.ticker ∘ fun t => statRowOf sq t (getColD data t)) = id := by
    funext t
    rfl
  rw [h, List.map_id]

/-- Claim C2 (amended): when the ticker list has no duplicates and meets
the columns, the result has exactly one row per ticker of the
intersection (every row's ticker lies in the intersection and each
intersection ticker labels exactly one row), and in every row whose
mean/min/max statistics are defined they satisfy min ≤ mean ≤ max. -/
theorem descriptive_stats_unique_rows (sq : ℚ → ℚ) (data : DataFrame)
    (tickers : List String) (hnd : tickers.Nodup)
    (hne : ∃ t ∈ tickers, t ∈ columns data) :
    ∃ rows, descriptive_stats sq data tickers = .ok rows ∧
      (∀ t ∈ tickers, t ∈ columns data → (rows.map StatRow.ticker).count t = 1) ∧
      (∀ r ∈ rows, r.ticker ∈ tickers ∧ r.ticker ∈ columns data) ∧
      (∀ r ∈ rows, ∀ m mn mx, r.mean = some m → r.min = some mn →
        r.max = some mx → mn ≤ m ∧ m ≤ mx) := by
  refine ⟨_, descriptive_stats_eq_ok sq data tickers hne, ?_, ?_, ?_⟩
  · intro t ht hc
    rw [descriptive_stats_tickers]
    rw [List.count_filter ((contains_iff_mem _ _).2 hc)]
    exact List.count_eq_one_of_mem hnd ht
  · intro r hr
    rw [List.mem_map] at hr
    obtain ⟨t, ht, hrt⟩ := hr
    rw [List.mem_filter] at ht
    rw [← hrt, statRowOf_ticker]
    exact ⟨ht.1, (contains_iff_mem _ _).1 ht.2⟩
  · intro r hr m mn mx hm hmn hmx
    rw [List.mem_map] at hr
    obtain ⟨t, _, hrt⟩ := hr
    rw [← hrt, statRowOf_mean] at hm
    rw [← hrt, statRowOf_min] at hmn
    rw [← hrt, statRowOf_max] at hmx
    exact min?_le_mean_le_max? _ m mn mx hm hmn hmx

/-- Witness for claim C2 at a concrete table and duplicate-free list. -/
theorem descriptive_stats_unique_rows_witness :
    ∃ rows, descriptive_stats (fun q => q) dfA ["A"] = .ok rows ∧
      (∀ t ∈ ["A"], t ∈ columns dfA → (rows.map StatRow.ticker).count t = 1) ∧
      (∀ r ∈ rows, r.ticker ∈ ["A"] ∧ r.ticker ∈ columns dfA) ∧
      (∀ r ∈ rows, ∀ m mn mx, r.mean = some m → r.min = some mn →
        r.max = some mx → mn ≤ m ∧ m ≤ mx) :=
  descriptive_stats_unique_rows (fun q => q) dfA ["A"] (by decide) (by decide)

/-- Counterexample to claim C2 as stated: with the duplicated list
["A", "A"] over a table that has column "A" (so the intersection is
non-empty and "A" is in it), the result carries two rows labelled "A",
not exactly one. -/
theorem descriptive_stats_dup_counterexample :
    "A" ∈ (["A", "A"] : List String) ∧ "A" ∈ columns dfA ∧
    (descriptive_stats (fun q => q) dfA ["A", "A"]).map
      (fun rows => (rows.map StatRow.ticker).count "A") = .ok 2 := by
  refine ⟨by decide, by decide, ?_⟩
  rw [descriptive_stats_eq_ok (fun q => q) dfA ["A", "A"] ⟨"A", by decide, by decide⟩]
  rw [Except.map]
  rw [descriptive_stats_tickers]
  rfl

/-- Claim C10: the rows of the descriptive-statistics result follow the
order of the caller's ticker list restricted to the table's columns (not
the table's column order), and a column ticker occurring k times in the
list yields k rows. -/
theorem descriptive_stats_row_order (sq : ℚ → ℚ) (data : DataFrame)
    (tickers : List String) (hne : ∃ t ∈ tickers, t ∈ columns data) :
    ∃ rows, descriptive_stats sq data tickers = .ok rows ∧
      rows.map StatRow.ticker =
        tickers.filter (fun t => (columns data).contains t) ∧
      ∀ t ∈ columns data, (rows.map StatRow.ticker).count t = tickers.count t := by
  refine ⟨_, descriptive_stats_eq_ok sq data tickers hne, ?_, ?_⟩
  · exact descriptive_stats_tickers sq data tickers
  · intro t hc
    rw [descriptive_stats_tickers]
    exact List.count_filter ((contains_iff_mem _ _).2 hc)

/-- Witness for claim C10: the list ["B", "A", "B"] over a table with
columns ["A", "B"] keeps the caller's order and the duplicate. -/
theorem descriptive_stats_row_order_witness :
    ∃ rows, descriptive_stats (fun q => q) dfAB ["B", "A", "B"] = .ok rows ∧
      rows.map StatRow.ticker =
        (["B", "A", "B"] : List String).filter
          (fun t => (columns dfAB).contains t) ∧
      ∀ t ∈ columns dfAB, (rows.map StatRow.ticker).count t =
        (["B", "A", "B"] : List String).count t :=
  descriptive_stats_row_order (fun q => q) dfAB ["B", "A", "B"] (by decide)

/-- A concrete stand-in for the ADF library call, used in witnesses:
statistic = series length, p-value = 0.01. -/
def adfConst : List ℚ → ℚ × ℚ := fun l => ((l.length : ℚ), 1 / 100)

/-- Claim C3: the stationarity test produces one row per column; the row
is computed by dropping the column's missing values and running the ADF
test on the rest, and it is classified "Yes" exactly when the p-value is
strictly below the 0.05 threshold, "No" otherwise. -/
theorem ts_stationarity_adf_contract (adf : List ℚ → ℚ × ℚ)
    (data : DataFrame) :
    (ts_stationarity adf data).length = data.cols.length ∧
    ∀ (i : Nat) (c : String × List (Option ℚ)), data.cols[i]? = some c →
      ∃ row : ADFRow, (ts_stationarity adf data)[i]? = some row ∧
        row.ticker = c.1 ∧
        row.adfStat = (adf (dropna c.2)).1 ∧
        row.pvalue = (adf (dropna c.2)).2 ∧
        (row.stationary = "Yes" ↔ row.pvalue < 0.05) ∧
        (row.stationary = "No" ↔ ¬ row.pvalue < 0.05) := by
  constructor
  · simp [ts_stationarity]
  · intro i c hc
    refine ⟨{ ticker := c.1, adfStat := (adf (dropna c.2)).1,
              pvalue := (adf (dropna c.2)).2,
              stationary := if (adf (dropna c.2)).2 < 0.05 then "Yes"
                            else "No" },
      ?_, rfl, rfl, rfl, ?_, ?_⟩
    · show (data.cols.map _)[i]? = _
      rw [List.getElem?_map, hc]
      rfl
    · by_cases h : (adf (dropna c.2)).2 < 0.05 <;> simp [h]
    · by_cases h : (adf (dropna c.2)).2 < 0.05 <;> simp [h]

/-- Witness for claim C3 at the first column of the two-column table. -/
theorem ts_stationarity_adf_contract_witness :
    ∃ row : ADFRow, (ts_stationarity adfConst dfAB)[0]? = some row ∧
      row.ticker = ("A", [some (1 : ℚ), some 2]).1 ∧
      row.adfStat = (adfConst (dropna ("A", [some (1 : ℚ), some 2]).2)).1 ∧
      row.pvalue = (adfConst (dropna ("A", [some (1 : ℚ), some 2]).2)).2 ∧
      (row.stationary = "Yes" ↔ row.pvalue < 0.05) ∧
      (row.stationary = "No" ↔ ¬ row.pvalue < 0.05) :=
  (ts_stationarity_adf_contract adfConst dfAB).2 0
    ("A", [some (1 : ℚ), some 2]) rfl

/-- Claim C7: the stationarity result has exactly one row per column of
the input table, carrying the column's name, in the column order of the
table. -/
theorem ts_stationarity_shape (adf : List ℚ → ℚ × ℚ) (data : DataFrame) :
    (ts_stationarity adf data).map ADFRow.ticker = columns data ∧
    (ts_stationarity adf data).length = (columns data).length := by
  have h : (ts_stationarity adf data).map ADFRow.ticker = columns data := by
    show (data.cols.map _).map ADFRow.ticker = data.cols.map Prod.fst
    rw [List.map_map]
    rfl
  exact ⟨h, by rw [← h, List.length_map]⟩

/-- Claim C4: when the provider call fails (raises), `stock_data` catches
the exception and returns the `None` sentinel; nothing propagates to the
caller. -/
theorem stock_data_failure_returns_none (today : Int)
    (download : List String → Int → Int → Except String DataFrame)
    (tickers : List String) (days : Int) (e : String)
    (h : download tickers (today - days) today = .error e) :
    stock_data today download tickers days = none := by
  simp only [stock_data]
  rw [h]

/-- Witness for claim C4: a provider that always raises makes the loader
return the sentinel. -/
theorem stock_data_failure_witness :
    stock_data 20000 (fun _ _ _ => .error "HTTPError") ["AAPL", "MSFT"] 200 =
      none :=
  stock_data_failure_returns_none 20000 (fun _ _ _ => .error "HTTPError")
    ["AAPL", "MSFT"] 200 "HTTPError" rfl

/-- Claim C9: the loader requests history exactly over the range ending
at the current date and starting `days` days earlier (the result depends
on the provider only through its answer at that range), and on success
returns the provider's table with the index name and the column-group
name stripped and the data untouched. -/
theorem stock_data_success_spec (today : Int)
    (download : List String → Int → Int → Except String DataFrame)
    (tickers : List String) (days : Int) (d : DataFrame)
    (h : download tickers (today - days) today = .ok d) :
    (∃ r, stock_data today download tickers days = some r ∧
      r.indexName = none ∧ r.columnsName = none ∧
      r.index = d.index ∧ r.cols = d.cols) ∧
    ∀ download2 : List String → Int → Int → Except String DataFrame,
      download2 tickers (today - days) today =
          download tickers (today - days) today →
      stock_data today download2 tickers days =
        stock_data today download tickers days := by
  constructor
  · refine ⟨{ d with indexName := none, columnsName := none },
      ?_, rfl, rfl, rfl, rfl⟩
    simp only [stock_data]
    rw [h]
  · intro download2 h2
    simp only [stock_data]
    rw [h2]

/-- Witness for claim C9 with a provider answering the fixed table. -/
theorem stock_data_success_witness :
    (∃ r, stock_data 20000 (fun _ _ _ => .ok dfA) ["AAPL"] 200 = some r ∧
      r.indexName = none ∧ r.columnsName = none ∧
      r.index = dfA.index ∧ r.cols = dfA.cols) ∧
    ∀ download2 : List String → Int → Int → Except String DataFrame,
      download2 ["AAPL"] (20000 - 200) 20000 =
          (fun _ _ _ => Except.ok dfA) ["AAPL"] (20000 - 200) 20000 →
      stock_data 20000 download2 ["AAPL"] 200 =
        stock_data 20000 (fun _ _ _ => .ok dfA) ["AAPL"] 200 :=
  stock_data_success_spec 20000 (fun _ _ _ => .ok dfA) ["AAPL"] 200 dfA rfl

/-- A concrete stand-in for the seasonal-decomposition library call, used
in witnesses and counterexamples. -/
def decompConst : List ℚ → Nat → List ℚ × List ℚ × List ℚ :=
  fun l _ => (l, l, l)

lemma getCol_ok_of_mem (df : DataFrame) (t : String) (h : t ∈ columns df) :
    ∃ v, getCol df t = .ok v := by
  unfold getCol
  cases hfind : df.cols.find? (fun c => c.1 == t) with
  | some c => exact ⟨c.2, rfl⟩
  | none =>
    rw [List.find?_eq_none] at hfind
    obtain ⟨c, hc, hct⟩ := List.mem_map.mp h
    exact absurd (by simp [hct]) (hfind c hc)

lemma getCol_error_of_not_mem (df : DataFrame) (t : String)
    (h : t ∉ columns df) : getCol df t = .error ("KeyError: " ++ t) := by
  unfold getCol
  cases hfind : df.cols.find? (fun c => c.1 == t) with
  | none => rfl
  | some c =>
    have hmem := List.mem_of_find?_eq_some hfind
    have hbeq := List.find?_some hfind
    rw [beq_iff_eq] at hbeq
    exact absurd (List.mem_map.mpr ⟨c, hmem, hbeq⟩) h

lemma tracking_plot_error_iff (data : DataFrame) (tickers : List String) :
    (∃ e, tracking_plot data tickers = .error e) ↔
      ∃ t ∈ tickers, t ∉ columns data := by
  induction tickers with
  | nil =>
    constructor
    · intro ⟨e, he⟩
      exact absurd he (by simp [tracking_plot])
    · intro ⟨t, ht, _⟩
      exact absurd ht (by simp)
  | cons t ts ih =>
    by_cases hmem : t ∈ columns data
    · obtain ⟨v, hv⟩ := getCol_ok_of_mem data t hmem
      constructor
      · intro ⟨e, he⟩
        rw [tracking_plot, hv] at he
        cases hts : tracking_plot data ts with
        | ok l =>
          rw [hts] at he
          exact absurd he (by simp [Except.map])
        | error e2 =>
          obtain ⟨u, hu, hnu⟩ := ih.1 ⟨e2, hts⟩
          exact ⟨u, List.mem_cons_of_mem t hu, hnu⟩
      · intro ⟨u, hu, hnu⟩
        rcases List.mem_cons.mp hu with h1 | h2
        · rw [h1] at hnu
          exact absurd hmem hnu
        · obtain ⟨e, he⟩ := ih.2 ⟨u, h2, hnu⟩
          refine ⟨e, ?_⟩
          rw [tracking_plot, hv, he]
          rfl
    · constructor
      · intro _
        exact ⟨t, List.mem_cons_self t ts, hmem⟩
      · intro _
        refine ⟨"KeyError: " ++ t, ?_⟩
        rw [tracking_plot, getCol_error_of_not_mem data t hmem]

lemma gridDraw_ok {α : Type} (draw : String → Cell α) :
    ∀ (ts : List String) (cap : Nat), ts.length ≤ cap →
      gridDraw draw ts cap =
        .ok (ts.map draw ++ List.replicate (cap - ts.length) Cell.blank) := by
  intro ts
  induction ts with
  | nil =>
    intro cap _
    simp [gridDraw]
  | cons t ts ih =>
    intro cap h
    cases cap with
    | zero => exact absurd h (by simp)
    | succ cap =>
      rw [gridDraw, ih cap (by simpa using h)]
      simp [Except.map, Nat.succ_sub_succ]

/-- The cells produced by a histogram/boxplot grid call: one per axes
slot; slot `i` shows `draw tickers[i]` while tickers last, and is blank
past the end of the ticker list. -/
lemma gridCells_spec {α : Type} (draw : String → Cell α) (ts : List String)
    (cap : Nat) (hcap : ts.length ≤ cap) :
    ∃ cells, gridDraw draw ts cap = .ok cells ∧
      cells.length = cap ∧
      (∀ (i : Nat) (t : String), ts[i]? = some t →
        cells[i]? = some (draw t)) ∧
      (∀ i : Nat, ts.length ≤ i → i < cap →
        cells[i]? = some Cell.blank) := by
  refine ⟨_, gridDraw_ok draw ts cap hcap, ?_, ?_, ?_⟩
  · simp
    omega
  · intro i t hit
    have hi : i < ts.length := by
      by_contra hge
      push_neg at hge
      rw [List.getElem?_eq_none (by simpa using hge)] at hit
      exact absurd hit (by simp)
    rw [List.getElem?_append_left (by simpa using hi), List.getElem?_map, hit]
    rfl
  · intro i hlow hhigh
    rw [List.getElem?_append_right (by simpa using hlow)]
    rw [List.getElem?_replicate]
    rw [if_pos (by simp; omega)]

lemma drawDecomp_ok (decomp : List ℚ → Nat → List ℚ × List ℚ × List ℚ) :
    ∀ (cs : List (String × List (Option ℚ))) (cap : Nat), cs.length ≤ cap →
      drawDecomp decomp cs cap =
        .ok (cs.map (fun c =>
          { ticker := c.1, period := 30, trend := (decomp (dropna c.2) 30).1,
            seasonal := (decomp (dropna c.2) 30).2.1,
            resid := (decomp (dropna c.2) 30).2.2 })) := by
  intro cs
  induction cs with
  | nil =>
    intro cap _
    simp [drawDecomp]
  | cons c cs ih =>
    intro cap h
    cases cap with
    | zero => exact absurd h (by simp)
    | succ cap =>
      rw [drawDecomp, ih cap (by simpa using h)]
      rfl

lemma drawAcf_ok :
    ∀ (cs : List (String × List (Option ℚ))) (cap : Nat), cs.length ≤ cap →
      drawAcf cs cap =
        .ok (cs.map (fun c =>
          { ticker := c.1, lags := 25, series := dropna c.2 })) := by
  intro cs
  induction cs with
  | nil =>
    intro cap _
    simp [drawAcf]
  | cons c cs ih =>
    intro cap h
    cases cap with
    | zero => exact absurd h (by simp)
    | succ cap =>
      rw [drawAcf, ih cap (by simpa using h)]
      rfl

lemma plot_histograms_ne_nil (data : DataFrame) (tickers : List String)
    (h : tickers ≠ []) :
    plot_histograms data tickers =
      gridDraw
        (fun t =>
          if (columns data).contains t then Cell.drawn t (getColD data t)
          else Cell.blank)
        tickers ((tickers.length + 2) / 3 * 3) := by
  have h0 : tickers.length ≠ 0 := fun hh => h (List.length_eq_zero.mp hh)
  have hrows : ¬ ((tickers.length + 2) / 3 = 0) := by omega
  simp only [plot_histograms]
  rw [if_neg hrows]

lemma plot_boxplots_ne_nil (data : DataFrame) (tickers : List String)
    (h : tickers ≠ []) :
    plot_boxplots data tickers =
      gridDraw
        (fun t =>
          if (columns data).contains t then
            Cell.drawn t (dropna (getColD data t))
          else Cell.blank)
        tickers ((tickers.length + 2) / 3 * 3) := by
  have h0 : tickers.length ≠ 0 := fun hh => h (List.length_eq_zero.mp hh)
  have hrows : ¬ ((tickers.length + 2) / 3 = 0) := by omega
  simp only [plot_boxplots]
  rw [if_neg hrows]

/-- Claim C5 (amended): provided the ticker list has at least two
elements and at least as many as the table has columns, the
decomposition figure draws exactly one row of sub-charts per column of
the table, each with the fixed period 30, and the ACF/PACF figure draws
exactly one row per column with the fixed lag count 25.  Outside that
range the functions fail instead: with fewer tickers than columns the
drawing loop runs past the last grid row and raises an IndexError, and
an empty or one-element ticker list makes the axes allocation unusable
(0 rows, or a squeezed 1-D array) for any non-empty table. -/
theorem fixed_param_rows_per_column
    (decomp : List ℚ → Nat → List ℚ × List ℚ × List ℚ) (data : DataFrame)
    (tickers : List String) (h2 : 2 ≤ tickers.length)
    (h : data.cols.length ≤ tickers.length) :
    (∃ rows, ts_decomposition decomp data tickers = .ok rows ∧
      rows.map DecompRow.ticker = columns data ∧
      ∀ r ∈ rows, r.period = 30) ∧
    (∃ rows, acf_pacf data tickers = .ok rows ∧
      rows.map ACFRow.ticker = columns data ∧
      ∀ r ∈ rows, r.lags = 25) := by
  have hne0 : ¬ tickers.length = 0 := by omega
  have hne1 : ¬ tickers.length = 1 := by omega
  have hts : ts_decomposition decomp data tickers =
      drawDecomp decomp data.cols tickers.length := by
    simp only [ts_decomposition]
    rw [if_neg hne0, if_neg hne1]
  have hac : acf_pacf data tickers = drawAcf data.cols tickers.length := by
    simp only [acf_pacf]
    rw [if_neg hne0, if_neg hne1]
  constructor
  · rw [hts]
    refine ⟨_, drawDecomp_ok decomp data.cols tickers.length h, ?_, ?_⟩
    · rw [List.map_map]
      rfl
    · intro r hr
      obtain ⟨c, _, hrc⟩ := List.mem_map.mp hr
      rw [← hrc]
  · rw [hac]
    refine ⟨_, drawAcf_ok data.cols tickers.length h, ?_, ?_⟩
    · rw [List.map_map]
      rfl
    · intro r hr
      obtain ⟨c, _, hrc⟩ := List.mem_map.mp hr
      rw [← hrc]

/-- Witness for claim C5 on the two-column table with two tickers. -/
theorem fixed_param_rows_per_column_witness :
    (∃ rows, ts_decomposition decompConst dfAB ["A", "B"] = .ok rows ∧
      rows.map DecompRow.ticker = columns dfAB ∧
      ∀ r ∈ rows, r.period = 30) ∧
    (∃ rows, acf_pacf dfAB ["A", "B"] = .ok rows ∧
      rows.map ACFRow.ticker = columns dfAB ∧
      ∀ r ∈ rows, r.lags = 25) :=
  fixed_param_rows_per_column decompConst dfAB ["A", "B"] (by decide)
    (by decide)

/-- Counterexample to claim C5 as stated: over the three-column table
with the two-element ticker list ["A", "B"], neither function renders a
row per column — the grid has one row per ticker, so both raise an
IndexError when the loop reaches the third column "C". -/
theorem fixed_param_rows_counterexample :
    columns dfABC = ["A", "B", "C"] ∧
    ts_decomposition decompConst dfABC ["A", "B"] = .error "IndexError at C" ∧
    acf_pacf dfABC ["A", "B"] = .error "IndexError at C" :=
  ⟨rfl, rfl, rfl⟩

/-- Claim C6 (amended): for every non-empty ticker list the histogram
and boxplot grid functions tolerate requested symbols absent from the
table — they never raise — but the line-plot function does not: it
raises a KeyError exactly when some requested symbol is absent from the
columns.  (On the empty ticker list the grid functions fail at subplot
allocation, a zero-row grid.) -/
theorem presentation_absent_symbol_policy (data : DataFrame)
    (tickers : List String) (h : tickers ≠ []) :
    (∃ cells, plot_histograms data tickers = .ok cells) ∧
    (∃ cells, plot_boxplots data tickers = .ok cells) ∧
    ((∃ e, tracking_plot data tickers = .error e) ↔
      ∃ t ∈ tickers, t ∉ columns data) := by
  have hcap : tickers.length ≤ (tickers.length + 2) / 3 * 3 := by omega
  refine ⟨?_, ?_, tracking_plot_error_iff data tickers⟩
  · rw [plot_histograms_ne_nil data tickers h]
    exact ⟨_, gridDraw_ok _ tickers _ hcap⟩
  · rw [plot_boxplots_ne_nil data tickers h]
    exact ⟨_, gridDraw_ok _ tickers _ hcap⟩

/-- Witness for claim C6 at the one-column table with one absent and one
present symbol. -/
theorem presentation_absent_symbol_policy_witness :
    (∃ cells, plot_histograms dfA ["B", "A"] = .ok cells) ∧
    (∃ cells, plot_boxplots dfA ["B", "A"] = .ok cells) ∧
    ((∃ e, tracking_plot dfA ["B", "A"] = .error e) ↔
      ∃ t ∈ (["B", "A"] : List String), t ∉ columns dfA) :=
  presentation_absent_symbol_policy dfA ["B", "A"] (by decide)

/-- Counterexample to claim C6 as stated: the line plot is a presentation
function, "B" is absent from the one-column table, and the call raises a
KeyError instead of silently skipping it. -/
theorem tracking_plot_absent_counterexample :
    "B" ∉ columns dfA ∧ tracking_plot dfA ["B"] = .error "KeyError: B" :=
  ⟨by decide, rfl⟩

/-- Claim C8: for a non-empty ticker list the histogram and boxplot grids
allocate 3 × ((n + 2) // 3) cells — at least one per ticker, so no index
is out of bounds and neither function raises; a requested ticker absent
from the columns gets a blank (disabled) cell, a present one gets its
chart, and cells past the last ticker are blanked. -/
theorem grid_functions_fit_and_skip (data : DataFrame)
    (tickers : List String) (h : tickers ≠ []) :
    tickers.length ≤ 3 * ((tickers.length + 2) / 3) ∧
    (∃ cells, plot_histograms data tickers = .ok cells ∧
      cells.length = (tickers.length + 2) / 3 * 3 ∧
      (∀ (i : Nat) (t : String), tickers[i]? = some t →
        t ∈ columns data → cells[i]? = some (Cell.drawn t (getColD data t))) ∧
      (∀ (i : Nat) (t : String), tickers[i]? = some t →
        t ∉ columns data → cells[i]? = some Cell.blank) ∧
      (∀ i : Nat, tickers.length ≤ i → i < cells.length →
        cells[i]? = some Cell.blank)) ∧
    (∃ cells, plot_boxplots data tickers = .ok cells ∧
      cells.length = (tickers.length + 2) / 3 * 3 ∧
      (∀ (i : Nat) (t : String), tickers[i]? = some t →
        t ∈ columns data →
        cells[i]? = some (Cell.drawn t (dropna (getColD data t)))) ∧
      (∀ (i : Nat) (t : String), tickers[i]? = some t →
        t ∉ columns data → cells[i]? = some Cell.blank) ∧
      (∀ i : Nat, tickers.length ≤ i → i < cells.length →
        cells[i]? = some Cell.blank)) := by
  have hcap : tickers.length ≤ (tickers.length + 2) / 3 * 3 := by omega
  refine ⟨by omega, ?_, ?_⟩
  · obtain ⟨cells, hok, hlen, hdraw, hblank⟩ :=
      gridCells_spec
        (fun t =>
          if (columns data).contains t then Cell.drawn t (getColD data t)
          else Cell.blank)
        tickers ((tickers.length + 2) / 3 * 3) hcap
    refine ⟨cells, ?_, hlen, ?_, ?_, ?_⟩
    · rw [plot_histograms_ne_nil data tickers h]
      exact hok
    · intro i t hit hmem
      rw [hdraw i t hit, if_pos ((contains_iff_mem _ _).2 hmem)]
    · intro i t hit hmem
      rw [hdraw i t hit, if_neg]
      rw [Bool.not_eq_true, ← Bool.not_eq_true]
      intro hc
      exact hmem ((contains_iff_mem _ _).1 hc)
    · intro i hlow hhigh
      exact hblank i hlow (hlen ▸ hhigh)
  · obtain ⟨cells, hok, hlen, hdraw, hblank⟩ :=
      gridCells_spec
        (fun t =>
          if (columns data).contains t then
            Cell.drawn t (dropna (getColD data t))
          else Cell.blank)
        tickers ((tickers.length + 2) / 3 * 3) hcap
    refine ⟨cells, ?_, hlen, ?_, ?_, ?_⟩
    · rw [plot_boxplots_ne_nil data tickers h]
      exact hok
    · intro i t hit hmem
      rw [hdraw i t hit, if_pos ((contains_iff_mem _ _).2 hmem)]
    · intro i t hit hmem
      rw [hdraw i t hit, if_neg]
      rw [Bool.not_eq_true, ← Bool.not_eq_true]
      intro hc
      exact hmem ((contains_iff_mem _ _).1 hc)
    · intro i hlow hhigh
      exact hblank i hlow (hlen ▸ hhigh)

/-- Witness for claim C8: the list ["X", "A"] over the one-column table,
where "X" is absent and "A" present. -/
theorem grid_functions_fit_and_skip_witness :
    (["X", "A"] : List String).length ≤
      3 * (((["X", "A"] : List String).length + 2) / 3) ∧
    (∃ cells, plot_histograms dfA ["X", "A"] = .ok cells ∧
      cells.length = ((["X", "A"] : List String).length + 2) / 3 * 3 ∧
      (∀ (i : Nat) (t : String), (["X", "A"] : List String)[i]? = some t →
        t ∈ columns dfA → cells[i]? = some (Cell.drawn t (getColD dfA t))) ∧
      (∀ (i : Nat) (t : String), (["X", "A"] : List String)[i]? = some t →
        t ∉ columns dfA → cells[i]? = some Cell.blank) ∧
      (∀ i : Nat, (["X", "A"] : List String).length ≤ i → i < cells.length →
        cells[i]? = some Cell.blank)) ∧
    (∃ cells, plot_boxplots dfA ["X", "A"] = .ok cells ∧
      cells.length = ((["X", "A"] : List String).length + 2) / 3 * 3 ∧
      (∀ (i : Nat) (t : String), (["X", "A"] : List String)[i]? = some t →
        t ∈ columns dfA →
        cells[i]? = some (Cell.drawn t (dropna (getColD dfA t)))) ∧
      (∀ (i : Nat) (t : String), (["X", "A"] : List String)[i]? = some t →
        t ∉ columns dfA → cells[i]? = some Cell.blank) ∧
      (∀ i : Nat, (["X", "A"] : List String).length ≤ i → i < cells.length →
        cells[i]? = some Cell.blank)) :=
  grid_functions_fit_and_skip dfA ["X", "A"] (by decide)
